import Mathlib

/-!
Verification of the GitBuddy profile-browser component (`src/Component/Body1.js`).

The component is shallowly embedded: the component's React state becomes an
explicit `CState` record, each asynchronous operation becomes pure step
functions applied at its interleaving points (the `await` boundaries), and
JavaScript numbers become an explicit `JSNum` type (NaN and the infinities are
separate constructors, finite doubles are modelled as rationals).
-/

namespace GitBuddy

/-- A user object as returned by the list endpoint `/users` (the fields the
component reads: `login`, `id`, `avatar_url`, `html_url`, `repos_url`). -/
structure User where
  login : String
  id : Int
  avatar_url : String
  html_url : String
  repos_url : String
deriving DecidableEq, Repr

/-! ### JavaScript string operations used by the filter

`p.login.toLowerCase().includes(debouncedSearch)` from `filteredProfiles`
(Body1.js line 148-150). `toLowerCase` maps each character to lower case;
`includes` is substring containment (true for the empty needle). -/

/-- Embedding of `String.prototype.toLowerCase` (per-character lowering). -/
def lowerStr (s : String) : String := String.mk (s.toList.map Char.toLower)

/-- `charsStartWith needle hay`: `hay` begins with `needle`. -/
def charsStartWith : List Char → List Char → Bool
  | [], _ => true
  | _ :: _, [] => false
  | a :: as, b :: bs => a == b && charsStartWith as bs

/-- `charsInclude needle hay`: `needle` occurs as a contiguous run in `hay`. -/
def charsInclude (needle : List Char) : List Char → Bool
  | [] => needle.isEmpty
  | b :: bs => charsStartWith needle (b :: bs) || charsInclude needle bs

/-- Embedding of `hay.includes(needle)` for JavaScript strings. -/
def includesStr (hay needle : String) : Bool :=
  charsInclude needle.toList hay.toList

/-- The derived filter of Body1.js lines 148-150:
`profile.filter((p) => p.login.toLowerCase().includes(debouncedSearch))`. -/
def filteredProfiles (profile : List User) (debouncedSearch : String) : List User :=
  profile.filter (fun p => includesStr (lowerStr p.login) debouncedSearch)

/-! ### JavaScript numbers and the count normalizer `safeCount` -/

/-- A JavaScript number: NaN, the two infinities, or a finite value (finite
doubles are a subset of the rationals; no rounding occurs in this component). -/
inductive JSNum where
  | nan : JSNum
  | posInf : JSNum
  | negInf : JSNum
  | finite : ℚ → JSNum
deriving DecidableEq, Repr

namespace JSNum

/-- JavaScript truthiness of a number: `0`, `-0` and `NaN` are falsy. -/
def truthy : JSNum → Bool
  | .nan => false
  | .posInf => true
  | .negInf => true
  | .finite q => decide (q ≠ 0)

/-- `isNaN(n)`. -/
def isNaNb : JSNum → Bool
  | .nan => true
  | _ => false

/-- The JavaScript `<` comparison on numbers (false whenever NaN is involved). -/
def lt : JSNum → JSNum → Bool
  | .nan, _ => false
  | _, .nan => false
  | .negInf, .negInf => false
  | .negInf, _ => true
  | _, .negInf => false
  | .posInf, _ => false
  | _, .posInf => true
  | .finite a, .finite b => decide (a < b)

/-- `Math.floor` on a JavaScript number (identity on NaN and infinities). -/
def mathFloor : JSNum → JSNum
  | .nan => .nan
  | .posInf => .posInf
  | .negInf => .negInf
  | .finite q => .finite (⌊q⌋ : ℤ)

end JSNum

/-- The default profile count (`DEFAULT_COUNT`, Body1.js line 20). -/
def DEFAULT_COUNT : ℚ := 10

/-- Embedding of `safeCount` (Body1.js lines 52-58), taking the already
converted number `Number(raw)`; `Number` is total on strings (a failed parse
yields NaN, never an exception), so `n` ranges over all of `JSNum`:
```
const n = Number(raw);
if (!n || isNaN(n)) return DEFAULT_COUNT;
if (n < 1) return 1;
if (n > 100) return 100;
return Math.floor(n);
``` -/
def safeCount (n : JSNum) : JSNum :=
  if !n.truthy || n.isNaNb then .finite DEFAULT_COUNT
  else if n.lt (.finite 1) then .finite 1
  else if (JSNum.finite 100).lt n then .finite 100
  else n.mathFloor

/-! ### The details map

`detailsMap` is `{ login: { followers, following, bio, fetchedAt, ... } }`
(Body1.js line 30). Entry fields may be numbers or the string fallbacks
produced by `??`, so values are tagged. Absent JavaScript fields are `none`. -/

/-- A value stored in a detail entry: a number or a string fallback. -/
inductive DVal where
  | num : ℤ → DVal
  | str : String → DVal
deriving DecidableEq, Repr

/-- One entry of `detailsMap`. The three object shapes the code stores are
`{ loading: true }`, the full success record, and
`{ loading: false, error: true }`; fields the shape omits are `none`. -/
structure DetailEntry where
  followers : Option DVal := none
  following : Option DVal := none
  bio : Option String := none
  location : Option String := none
  company : Option String := none
  fetchedAt : Option ℤ := none
  loading : Bool := false
  error : Bool := false
deriving DecidableEq, Repr

/-- Property lookup in the details object (first binding wins, as every update
replaces the whole object under the key). -/
def dmLookup : List (String × DetailEntry) → String → Option DetailEntry
  | [], _ => none
  | (k', v') :: rest, k => if k' = k then some v' else dmLookup rest k

/-- Embedding of the spread update `{ ...d, [login]: v }`: replace the binding
for `login` if present, else add one. -/
def dmInsert (m : List (String × DetailEntry)) (k : String) (v : DetailEntry) :
    List (String × DetailEntry) :=
  match m with
  | [] => [(k, v)]
  | (k', v') :: rest => if k' = k then (k, v) :: rest else (k', v') :: dmInsert rest k v

/-! ### Component state -/

/-- The React state of `Body1` plus the abort bookkeeping: `abortRef` holds the
identifier of the live `AbortController`, and `aborted` records every
controller on which `.abort()` has been called. -/
structure CState where
  profile : List User
  loading : Bool
  loadingMore : Bool
  error : String
  sinceCursor : Option ℤ
  detailsMap : List (String × DetailEntry)
  message : String
  abortRef : Option ℕ
  aborted : List ℕ
deriving DecidableEq, Repr

/-- The state at mount (Body1.js lines 22-33). -/
def initialState : CState :=
  { profile := [], loading := false, loadingMore := false, error := ""
    sinceCursor := none, detailsMap := [], message := ""
    abortRef := none, aborted := [] }

/-! ### The list fetcher `generateProfile` (Body1.js lines 62-113)

The function runs synchronously up to `await fetch(...)`; that synchronous
span is `gpStart`. The continuation after the response is `gpResolve`: if the
request's controller was aborted the `await` throws `AbortError`, which the
`catch` ignores, and only the `finally` block runs; otherwise the success or
failure branch runs followed by `finally`. -/

/-- The outcome the transport hands to a non-aborted request: the parsed JSON
array on a 2xx response, or the thrown error's message otherwise (non-2xx
status or network failure). -/
inductive FetchOutcome where
  | success : List User → FetchOutcome
  | failure : String → FetchOutcome
deriving DecidableEq, Repr

/-- The `since` seed (Body1.js lines 74-78): a random value, overridden by the
cursor on an append when the cursor is set and truthy (`0` is falsy). -/
def gpSince (append : Bool) (rand : ℤ) (cursor : Option ℤ) : ℤ :=
  match append, cursor with
  | true, some c => if c = 0 then rand else c
  | _, _ => rand

/-- Synchronous span of `generateProfile(count, append)` with fresh controller
`c`: clears the error, aborts the previous controller, installs `c`, and sets
the mode's loading flag (lines 64-71). -/
def gpStart (append : Bool) (c : ℕ) (s : CState) : CState :=
  let s1 : CState := { s with error := "" }
  let s2 : CState :=
    { s1 with
      aborted := match s1.abortRef with
        | some p => p :: s1.aborted
        | none => s1.aborted
      abortRef := some c }
  if append then { s2 with loadingMore := true } else { s2 with loading := true }

/-- Success branch (lines 90-99): update the cursor to last id + 1 when the
response is non-empty, then replace or append the list, then flash a message. -/
def gpSuccess (append : Bool) (data : List User) (s : CState) : CState :=
  let s1 : CState :=
    match data.getLast? with
    | some lastU => { s with sinceCursor := some (lastU.id + 1) }
    | none => s
  let s2 : CState := { s1 with profile := if append then s1.profile ++ data else data }
  { s2 with
    message := (if append then "Appended " else "Loaded ")
      ++ toString data.length ++ " profiles" }

/-- Failure branch for a non-abort error (lines 103-106): record the message
(`err.message || "Failed to load profiles."`) and clear the list on a replace. -/
def gpFailure (append : Bool) (msg : String) (s : CState) : CState :=
  { s with
    error := if msg = "" then "Failed to load profiles." else msg
    profile := if append then s.profile else [] }

/-- The `finally` block (lines 108-112): drop both loading flags and null the
abort ref. It runs on every path, the aborted one included. -/
def gpFinally (s : CState) : CState :=
  { s with loading := false, loadingMore := false, abortRef := none }

/-- Continuation of the request owned by controller `c` once the transport
settles: an aborted controller makes the `await` throw `AbortError`, which the
`catch` ignores (lines 101-102), so only `finally` runs; otherwise the success
or failure branch runs and then `finally`. -/
def gpResolve (append : Bool) (c : ℕ) (outcome : FetchOutcome) (s : CState) : CState :=
  if c ∈ s.aborted then gpFinally s
  else
    match outcome with
    | .success data => gpFinally (gpSuccess append data s)
    | .failure msg => gpFinally (gpFailure append msg s)

/-! ### The detail fetcher `fetchUserDetails` (Body1.js lines 117-145) -/

/-- The freshness window: `1000 * 60 * 5` milliseconds. -/
def freshnessWindow : ℤ := 1000 * 60 * 5

/-- The early-return guard (lines 120-123):
`existing && Date.now() - (existing.fetchedAt || 0) < 1000 * 60 * 5`. -/
def fudGuard (m : List (String × DetailEntry)) (login : String) (now : ℤ) : Bool :=
  match dmLookup m login with
  | none => false
  | some e => decide (now - (e.fetchedAt.getD 0) < freshnessWindow)

/-- Synchronous span of `fetchUserDetails(login)` at clock value `now`:
returns the state after it and whether a network request was issued. A falsy
(empty) login or a fresh entry returns without fetching; otherwise the entry
is set to `{ loading: true }` and the request goes out (lines 118-127). -/
def fudStart (login : String) (now : ℤ) (s : CState) : CState × Bool :=
  if login = "" then (s, false)
  else if fudGuard s.detailsMap login now then (s, false)
  else ({ s with detailsMap := dmInsert s.detailsMap login { loading := true } }, true)

/-- The raw JSON object of a detail response; each field may be absent. -/
structure DetailObj where
  followers : Option ℤ := none
  following : Option ℤ := none
  bio : Option String := none
  location : Option String := none
  company : Option String := none
deriving DecidableEq, Repr

/-- Success continuation (lines 129-139) at clock value `now`: store the
fields with the `??` fallbacks, the fetch timestamp, and `loading: false`. -/
def fudSuccess (login : String) (obj : DetailObj) (now : ℤ) (s : CState) : CState :=
  { s with
    detailsMap := dmInsert s.detailsMap login
      { followers := some ((obj.followers.map DVal.num).getD (.str "—"))
        following := some ((obj.following.map DVal.num).getD (.str "—"))
        bio := some (obj.bio.getD "")
        location := some (obj.location.getD "")
        company := some (obj.company.getD "")
        fetchedAt := some now
        loading := false } }

/-- Failure continuation (lines 140-144): mark only this login's entry as
errored and flash a transient message. -/
def fudFailure (login : String) (s : CState) : CState :=
  { s with
    detailsMap := dmInsert s.detailsMap login { loading := false, error := true }
    message := "Could not fetch details (rate-limit?)" }

/-- The three-user working list of the specification's filtering example
(section 8): logins `octocat`, `torvalds`, `mojombo`. -/
def demoUsers : List User :=
  [{ login := "octocat", id := 1, avatar_url := "", html_url := "", repos_url := "" },
   { login := "torvalds", id := 2, avatar_url := "", html_url := "", repos_url := "" },
   { login := "mojombo", id := 3, avatar_url := "", html_url := "", repos_url := "" }]

/-! ### Helper lemmas -/

/-- `charsStartWith` decides the prefix relation. -/
theorem charsStartWith_iff (n h : List Char) :
    charsStartWith n h = true ↔ ∃ t, h = n ++ t := by
  induction n generalizing h with
  | nil => simp [charsStartWith]
  | cons a as ih =>
    cases h with
    | nil => simp [charsStartWith]
    | cons b bs =>
      simp only [charsStartWith, Bool.and_eq_true, beq_iff_eq, ih, List.cons_append]
      constructor
      · rintro ⟨rfl, t, rfl⟩
        exact ⟨t, rfl⟩
      · rintro ⟨t, ht⟩
        injection ht with h1 h2
        exact ⟨h1.symm, t, h2⟩

/-- `charsInclude` decides contiguous containment. -/
theorem charsInclude_iff (n h : List Char) :
    charsInclude n h = true ↔ ∃ l1 l2, h = l1 ++ n ++ l2 := by
  induction h with
  | nil =>
    simp only [charsInclude, List.isEmpty_iff]
    constructor
    · rintro rfl; exact ⟨[], [], rfl⟩
    · rintro ⟨l1, l2, hl⟩
      rcases List.append_eq_nil.mp hl.symm with ⟨h12, h3⟩
      exact (List.append_eq_nil.mp h12).2
  | cons b bs ih =>
    simp only [charsInclude, Bool.or_eq_true, charsStartWith_iff, ih]
    constructor
    · rintro (⟨t, ht⟩ | ⟨l1, l2, rfl⟩)
      · exact ⟨[], t, by simp [ht]⟩
      · exact ⟨b :: l1, l2, rfl⟩
    · rintro ⟨l1, l2, hl⟩
      cases l1 with
      | nil => exact Or.inl ⟨l2, by simpa using hl⟩
      | cons c cs =>
        injection hl with h1 h2
        exact Or.inr ⟨cs, l2, h2⟩

/-- The empty needle is contained in every haystack (`"".includes` behaviour
of the empty search term). -/
theorem charsInclude_nil (h : List Char) : charsInclude [] h = true :=
  (charsInclude_iff [] h).mpr ⟨[], h, by simp⟩

/-- Reading back the key just written by the spread update. -/
theorem dmLookup_insert_self (m : List (String × DetailEntry)) (k : String) (v : DetailEntry) :
    dmLookup (dmInsert m k v) k = some v := by
  induction m with
  | nil => simp [dmInsert, dmLookup]
  | cons p rest ih =>
    obtain ⟨k', v'⟩ := p
    by_cases h : k' = k <;> simp [dmInsert, dmLookup, h, ih]

/-- The spread update leaves every other key untouched. -/
theorem dmLookup_insert_ne (m : List (String × DetailEntry)) (k : String) (v : DetailEntry)
    (l : String) (h : k ≠ l) : dmLookup (dmInsert m k v) l = dmLookup m l := by
  induction m with
  | nil => simp [dmInsert, dmLookup, h]
  | cons p rest ih =>
    obtain ⟨k', v'⟩ := p
    by_cases hk : k' = k
    · subst hk
      simp [dmInsert, dmLookup, h]
    · simp [dmInsert, dmLookup, hk, ih]

/-! ### Claim theorems -/

/-- C1 counterexample: in the concrete two-request interleaving (a replace
load superseded by a second replace load), the superseded request does
mutate state after its cancellation — its `finally` block drops the loading
flag from `true` to `false` and clears the abort handle that the later
request had installed.  This refutes the claim that the aborted request
performs no state mutation at all, in particular to the loading flags and
the abort handle. -/
theorem gp_abort_cex :
    ((gpStart false 2 (gpStart false 1 initialState)).loading = true
      ∧ (gpStart false 2 (gpStart false 1 initialState)).abortRef = some 2)
    ∧ ((gpResolve false 1 (.failure "network error")
          (gpStart false 2 (gpStart false 1 initialState))).loading = false
      ∧ (gpResolve false 1 (.failure "network error")
          (gpStart false 2 (gpStart false 1 initialState))).abortRef = none) := by
  decide

/-- C1 (amended): a superseded (aborted) list request never applies its
response — it leaves the working list, the error string, the cursor and the
details map unchanged — but its `finally` cleanup does reset both loading
flags and clears the abort handle; and in the two-request interleaving only
the later request ever writes the working list, which ends up holding
exactly the later response. -/
theorem gp_supersede_amended (s : CState) (out1 : FetchOutcome) (data : List User)
    (h1 : s.abortRef = none) (h2 : 2 ∉ s.aborted) :
    (∀ (append : Bool) (c : ℕ) (out : FetchOutcome) (s' : CState), c ∈ s'.aborted →
      (gpResolve append c out s').profile = s'.profile
      ∧ (gpResolve append c out s').error = s'.error
      ∧ (gpResolve append c out s').sinceCursor = s'.sinceCursor
      ∧ (gpResolve append c out s').detailsMap = s'.detailsMap)
    ∧ (∀ (append : Bool) (c : ℕ) (out : FetchOutcome) (s' : CState), c ∈ s'.aborted →
      (gpResolve append c out s').loading = false
      ∧ (gpResolve append c out s').loadingMore = false
      ∧ (gpResolve append c out s').abortRef = none)
    ∧ (gpResolve false 2 (.success data)
        (gpResolve false 1 out1 (gpStart false 2 (gpStart false 1 s)))).profile = data := by
  refine ⟨?_, ?_, ?_⟩
  · intro append c out s' hmem
    simp [gpResolve, gpFinally, hmem]
  · intro append c out s' hmem
    simp [gpResolve, gpFinally, hmem]
  · rcases hgl : data.getLast? with _ | u <;>
      simp [gpStart, gpResolve, gpSuccess, gpFinally, h1, h2, hgl, List.mem_cons]

/-- C1 witness: the amended theorem applied at the initial state — the
superseded request leaves the list as it was, and the final list is the
later response. -/
theorem gp_supersede_witness :
    ((gpResolve false 1 (.failure "network error")
        (gpStart false 2 (gpStart false 1 initialState))).profile
      = (gpStart false 2 (gpStart false 1 initialState)).profile)
    ∧ (gpResolve false 2 (.success demoUsers)
        (gpResolve false 1 (.failure "network error")
          (gpStart false 2 (gpStart false 1 initialState)))).profile = demoUsers := by
  constructor
  · exact ((gp_supersede_amended initialState (.failure "network error") demoUsers rfl
      (by decide)).1 false 1 (.failure "network error")
      (gpStart false 2 (gpStart false 1 initialState)) (by decide)).1
  · exact (gp_supersede_amended initialState (.failure "network error") demoUsers rfl
      (by decide)).2.2

/-- C2 counterexample: on the working list with logins `octocat`, `torvalds`,
`mojombo` and the search term `to`, the filter result is not `[torvalds]` —
`octocat` also contains `to` as a substring, so the claimed example output
is wrong. -/
theorem filteredProfiles_example_cex :
    (filteredProfiles demoUsers "to").map User.login ≠ ["torvalds"] := by
  decide

/-- C2 (amended): the derived filter returns, in original order, exactly the
users whose lower-cased login contains the debounced term as a contiguous
substring; the empty term returns the full list; on the example list the
term `to` yields `octocat` and `torvalds` (not `torvalds` alone), and the
empty term yields all three in original order. -/
theorem filteredProfiles_spec :
    (∀ l : List User, filteredProfiles l "" = l)
    ∧ (∀ (l : List User) (t : String), (filteredProfiles l t).Sublist l)
    ∧ (∀ (l : List User) (t : String) (p : User),
        p ∈ filteredProfiles l t ↔ p ∈ l ∧ ∃ l1 l2 : List Char,
          (lowerStr p.login).toList = l1 ++ t.toList ++ l2)
    ∧ (filteredProfiles demoUsers "to").map User.login = ["octocat", "torvalds"]
    ∧ (filteredProfiles demoUsers "").map User.login = ["octocat", "torvalds", "mojombo"] := by
  refine ⟨?_, ?_, ?_, by decide, by decide⟩
  · intro l
    apply List.filter_eq_self.mpr
    intro p hp
    simp [includesStr, charsInclude_nil]
  · intro l t
    exact List.filter_sublist l
  · intro l t p
    simp [filteredProfiles, List.mem_filter, includesStr, charsInclude_iff]

/-- C3: `safeCount` is total (a total function of the parsed number; `Number`
itself never throws on a string, a failed parse being NaN) and always yields
an integer in `[1, 100]`; NaN (non-numeric input) and zero (also the parse of
the empty string) yield the default 10, and in-range values are floored. -/
theorem safeCount_contract :
    (∀ n : JSNum, ∃ k : ℤ, safeCount n = .finite (k : ℚ) ∧ 1 ≤ k ∧ k ≤ 100)
    ∧ safeCount .nan = .finite 10
    ∧ safeCount (.finite 0) = .finite 10
    ∧ (∀ q : ℚ, 1 ≤ q → q ≤ 100 → safeCount (.finite q) = .finite ((⌊q⌋ : ℤ) : ℚ)) := by
  have hmain : ∀ q : ℚ, 1 ≤ q → q ≤ 100 → safeCount (.finite q) = .finite ((⌊q⌋ : ℤ) : ℚ) := by
    intro q h1 h100
    have hq0 : ¬ q = 0 := by intro h; rw [h] at h1; norm_num at h1
    have hlt : ¬ q < 1 := not_lt.mpr h1
    have hgt : ¬ (100 : ℚ) < q := not_lt.mpr h100
    simp [safeCount, JSNum.truthy, JSNum.isNaNb, JSNum.lt, JSNum.mathFloor, hq0, hlt, hgt]
  refine ⟨?_, by decide, by decide, hmain⟩
  intro n
  cases n with
  | nan => exact ⟨10, by decide, by decide, by decide⟩
  | posInf =>
    refine ⟨100, ?_, by decide, by decide⟩
    simp [safeCount, JSNum.truthy, JSNum.isNaNb, JSNum.lt, JSNum.mathFloor]
  | negInf =>
    refine ⟨1, ?_, by decide, by decide⟩
    simp [safeCount, JSNum.truthy, JSNum.isNaNb, JSNum.lt, JSNum.mathFloor]
  | finite q =>
    by_cases hq0 : q = 0
    · exact ⟨10, by simp [hq0, safeCount, JSNum.truthy, DEFAULT_COUNT], by decide, by decide⟩
    by_cases hlt : q < 1
    · refine ⟨1, ?_, by decide, by decide⟩
      simp [safeCount, JSNum.truthy, JSNum.isNaNb, JSNum.lt, hq0, hlt]
    by_cases hgt : (100 : ℚ) < q
    · refine ⟨100, ?_, by decide, by decide⟩
      simp [safeCount, JSNum.truthy, JSNum.isNaNb, JSNum.lt, hq0, hlt, hgt]
    · refine ⟨⌊q⌋, hmain q (not_lt.mp hlt) (not_lt.mp hgt), ?_, ?_⟩
      · exact Int.le_floor.mpr (by exact_mod_cast not_lt.mp hlt)
      · have hfl : (⌊q⌋ : ℚ) ≤ q := Int.floor_le q
        have hle : (⌊q⌋ : ℚ) ≤ 100 := le_trans hfl (not_lt.mp hgt)
        exact_mod_cast hle

/-- C3 witness: the in-range input 7/2 is floored to 3. -/
theorem safeCount_contract_witness :
    safeCount (.finite (7/2)) = .finite 3 :=
  (safeCount_contract.2.2.2 (7/2) (by norm_num) (by norm_num)).trans (by norm_num)

/-- C9: every nonzero parsed value strictly below 1 (such as -5 or 0.3) is
clamped to 1, not defaulted to 10, and the default branch is taken exactly
for NaN and for zero. -/
theorem safeCount_lower_clamp :
    (∀ q : ℚ, q ≠ 0 → q < 1 → safeCount (.finite q) = .finite 1)
    ∧ safeCount (.finite (-5)) = .finite 1
    ∧ safeCount (.finite (3/10)) = .finite 1
    ∧ (∀ n : JSNum, (!n.truthy || n.isNaNb) = true ↔ n = .nan ∨ n = .finite 0) := by
  have hclamp : ∀ q : ℚ, q ≠ 0 → q < 1 → safeCount (.finite q) = .finite 1 := by
    intro q hq0 hlt
    simp [safeCount, JSNum.truthy, JSNum.isNaNb, JSNum.lt, hq0, hlt]
  refine ⟨hclamp, hclamp (-5) (by norm_num) (by norm_num),
    hclamp (3/10) (by norm_num) (by norm_num), ?_⟩
  intro n
  cases n with
  | nan => simp [JSNum.truthy, JSNum.isNaNb]
  | posInf => simp [JSNum.truthy, JSNum.isNaNb]
  | negInf => simp [JSNum.truthy, JSNum.isNaNb]
  | finite q =>
    by_cases hq0 : q = 0 <;> simp [JSNum.truthy, JSNum.isNaNb, hq0]

/-- C9 witness: the negative input -7 yields the lower clamp 1. -/
theorem safeCount_lower_clamp_witness :
    safeCount (.finite (-7)) = .finite 1 :=
  safeCount_lower_clamp.1 (-7) (by norm_num) (by norm_num)

/-- C4: a failed (non-2xx or network error, non-aborted) list fetch records
the thrown message (or the fallback text when that message is empty), which
is never the empty string; a failed replace clears the working list while a
failed append leaves it exactly unchanged. -/
theorem gp_failure_frame (append : Bool) (msg : String) (s : CState) :
    (gpFinally (gpFailure append msg s)).error
        = (if msg = "" then "Failed to load profiles." else msg)
    ∧ 0 < (gpFinally (gpFailure append msg s)).error.length
    ∧ (gpFinally (gpFailure append msg s)).profile = (if append then s.profile else []) := by
  refine ⟨rfl, ?_, rfl⟩
  by_cases h : msg = ""
  · simp only [gpFinally, gpFailure, if_pos h]
    decide
  · simp only [gpFinally, gpFailure, if_neg h]
    cases msg with
    | mk cs =>
      cases cs with
      | nil => exact absurd rfl h
      | cons c cs2 => simp [String.length]

/-- C5: a successful append of M response items onto N existing items yields
a working list of N + M items whose first N items are the prior items
unchanged and in order, followed by the M response items in response
order. -/
theorem gp_append_success (data : List User) (s : CState) :
    (gpFinally (gpSuccess true data s)).profile.length = s.profile.length + data.length
    ∧ (gpFinally (gpSuccess true data s)).profile.take s.profile.length = s.profile
    ∧ (gpFinally (gpSuccess true data s)).profile.drop s.profile.length = data := by
  have hp : (gpFinally (gpSuccess true data s)).profile = s.profile ++ data := by
    rcases hgl : data.getLast? with _ | u <;> simp [gpFinally, gpSuccess, hgl]
  rw [hp]
  exact ⟨List.length_append _ _, List.take_left _ _, List.drop_left _ _⟩

/-- C8: a successful list fetch with a non-empty response sets the cursor to
the id of the last response element plus 1, in replace and append mode
alike; an empty response leaves the cursor unchanged. -/
theorem gp_cursor_update (append : Bool) (s : CState) :
    (∀ (l : List User) (u : User),
      (gpFinally (gpSuccess append (l ++ [u]) s)).sinceCursor = some (u.id + 1))
    ∧ (gpFinally (gpSuccess append [] s)).sinceCursor = s.sinceCursor := by
  constructor
  · intro l u
    simp [gpFinally, gpSuccess, List.getLast?_concat]
  · simp [gpFinally, gpSuccess]

/-- C6: after a successful detail fetch for a login completed at time `t`, a
second call within the 5-minute freshness window is a no-op — it issues no
network request and leaves the whole state (the detail entry included)
unchanged — while a call at or past the end of the window issues a new
network request. -/
theorem details_freshness (s : CState) (login : String) (obj : DetailObj) (t now : ℤ)
    (hlogin : login ≠ "") :
    (now - t < freshnessWindow →
      fudStart login now (fudSuccess login obj t s) = (fudSuccess login obj t s, false))
    ∧ (freshnessWindow ≤ now - t →
      (fudStart login now (fudSuccess login obj t s)).2 = true) := by
  have hguard : fudGuard (fudSuccess login obj t s).detailsMap login now
      = decide (now - t < freshnessWindow) := by
    simp [fudGuard, fudSuccess, dmLookup_insert_self]
  constructor
  · intro hfresh
    simp [fudStart, hlogin, hguard, hfresh]
  · intro hstale
    simp [fudStart, hlogin, hguard, not_lt.mpr hstale]

/-- C6 witness: one millisecond after a successful fetch for `octocat` the
second call is a no-op. -/
theorem details_freshness_witness :
    fudStart "octocat" 1 (fudSuccess "octocat" {} 0 initialState)
      = (fudSuccess "octocat" {} 0 initialState, false) :=
  (details_freshness initialState "octocat" {} 0 1 (by decide)).1 (by decide)

/-- C7: a failed detail fetch for a login marks exactly that login as errored
and leaves the working list, the cursor, the global error string, both
loading flags, and every other login untouched. -/
theorem detail_failure_frame (s : CState) (login : String) :
    (fudFailure login s).profile = s.profile
    ∧ (fudFailure login s).sinceCursor = s.sinceCursor
    ∧ (fudFailure login s).error = s.error
    ∧ (fudFailure login s).loading = s.loading
    ∧ (fudFailure login s).loadingMore = s.loadingMore
    ∧ dmLookup (fudFailure login s).detailsMap login
        = some { loading := false, error := true }
    ∧ (∀ l : String, l ≠ login →
        dmLookup (fudFailure login s).detailsMap l = dmLookup s.detailsMap l) := by
  refine ⟨rfl, rfl, rfl, rfl, rfl, ?_, ?_⟩
  · simp [fudFailure, dmLookup_insert_self]
  · intro l hl
    simp [fudFailure, dmLookup_insert_ne _ _ _ _ (Ne.symm hl)]

/-- C7 witness: a failed fetch for `octocat` leaves the entry of `torvalds`
exactly as it was. -/
theorem detail_failure_frame_witness :
    dmLookup (fudFailure "octocat" initialState).detailsMap "torvalds"
      = dmLookup initialState.detailsMap "torvalds" :=
  (detail_failure_frame initialState "octocat").2.2.2.2.2.2 "torvalds" (by decide)

/-- C10: a detail entry in loading or error state carries no fetch timestamp
(`fetchedAt` is absent from both object shapes), so for any clock value that
is at least the window length — `Date.now()` exceeds it in every execution
after five minutes past the epoch — the freshness guard cannot hold and the
next call issues a new network request: failed rows are retryable. -/
theorem details_retryable (s : CState) (login : String) (e : DetailEntry) (now : ℤ)
    (hlogin : login ≠ "") (he : dmLookup s.detailsMap login = some e)
    (hnone : e.fetchedAt = none) (hclock : freshnessWindow ≤ now) :
    (fudStart login now s).2 = true
    ∧ dmLookup (fudFailure login s).detailsMap login
        = some { loading := false, error := true }
    ∧ DetailEntry.fetchedAt { loading := false, error := true } = none
    ∧ DetailEntry.fetchedAt { loading := true } = none := by
  refine ⟨?_, ?_, rfl, rfl⟩
  · have hguard : fudGuard s.detailsMap login now = false := by
      simp [fudGuard, he, hnone, Option.getD, not_lt.mpr (by simpa using hclock)]
    simp [fudStart, hlogin, hguard]
  · simp [fudFailure, dmLookup_insert_self]

/-- C10 witness: right after a failed fetch for `octocat`, a call at clock
value 300000 issues a new network request. -/
theorem details_retryable_witness :
    (fudStart "octocat" 300000 (fudFailure "octocat" initialState)).2 = true :=
  (details_retryable (fudFailure "octocat" initialState) "octocat"
    { loading := false, error := true } 300000 (by decide) (by decide) rfl (by decide)).1

end GitBuddy
